import Mathlib

/-!
Verification of the on-demand model cache of the two-stage car classifier
(`app/services/car_model_classifier.py`, `app/services/brand_classifier.py`,
`app/utils/downloader.py`, `app/utils/file_utils.py`).

The Python services are shallowly embedded: dictionaries become association
lists, fallible effects (network download, `torch.load`, the strict weight
load and the preprocessing/forward pass) become explicit outcome parameters
of type `Except String _` or small outcome inductives, and every embedded
operation is a total executable Lean function mirroring the source control
flow line by line.
-/

/-- A weight tensor is represented by its shape only; PyTorch weight
tensors always have at least one dimension, so the leading dimension
(`shape[0]` in the source) is a separate field. -/
structure Tensor where
  shape0 : Nat
  shapeRest : List Nat
deriving DecidableEq, Repr

/-- Keys of the `idx_to_model` dictionary: the source probes
`isinstance(list(idx_to_model.keys())[0], str)`, so keys may be Python
ints or strings. -/
inductive IdxKey where
  | kint (n : Nat)
  | kstr (s : String)
deriving DecidableEq, Repr

/-- First-match association-list lookup, the semantics of `dict.get` /
`dict[...]` for dictionaries with unique keys. -/
def dictGet {α β : Type} [DecidableEq α] (k : α) : List (α × β) → Option β
  | [] => none
  | (a, b) :: rest => if a = k then some b else dictGet k rest

/-- Python `d[k] = v`: update in place when the key exists, append otherwise. -/
def dictSet {α β : Type} [DecidableEq α] (m : List (α × β)) (k : α) (v : β) :
    List (α × β) :=
  if (dictGet k m).isSome then
    m.map (fun q => if q.1 = k then (k, v) else q)
  else
    m ++ [(k, v)]

/-- A deserialized checkpoint (`torch.load` result): a dictionary with the
keys the services read.  Absent keys are `none`; `model_state_dict` maps
tensor names to tensors. -/
structure Checkpoint where
  architecture : Option String
  model_state_dict : Option (List (String × Tensor))
  brand_name : Option String
  num_classes : Option Nat
  best_val_acc : Option ℚ
  model_to_idx : List (String × Nat)
  idx_to_model : Option (List (IdxKey × String))
  class_to_idx : Option (List (String × Nat))
deriving DecidableEq, Repr

/-- A checkpoint with every optional key absent, for building test inputs. -/
def Checkpoint.empty : Checkpoint :=
  ⟨none, none, none, none, none, [], none, none⟩

/-- `CarModelClassifier._detect_model_architecture`: explicit
`'architecture'` key first; else the leading dimension of
`features.8.0.weight` in `model_state_dict` (1280 ↦ efficientnet_b0,
1536 ↦ efficientnet_b3); else the default `'efficientnet_b0'`. -/
def CarModelClassifier.detect_model_architecture (checkpoint : Checkpoint) : String :=
  match checkpoint.architecture with
  | some a => a
  | none =>
    let state_dict := checkpoint.model_state_dict.getD []
    match dictGet "features.8.0.weight" state_dict with
    | some t =>
      if t.shape0 = 1280 then "efficientnet_b0"
      else if t.shape0 = 1536 then "efficientnet_b3"
      else "efficientnet_b0"
    | none => "efficientnet_b0"

/-- `BrandClassifier._detect_model_architecture`: identical to the car-model
variant except that the fallback default is `'efficientnet_b3'`. -/
def BrandClassifier.detect_model_architecture (checkpoint : Checkpoint) : String :=
  match checkpoint.architecture with
  | some a => a
  | none =>
    let state_dict := checkpoint.model_state_dict.getD []
    match dictGet "features.8.0.weight" state_dict with
    | some t =>
      if t.shape0 = 1280 then "efficientnet_b0"
      else if t.shape0 = 1536 then "efficientnet_b3"
      else "efficientnet_b3"
    | none => "efficientnet_b3"

/-- `CarModelClassifier._detect_classifier_hidden_size`: the leading shape
entry of `classifier.1.weight` when present, else the default 512.
(`BrandClassifier._detect_classifier_hidden_size` is textually the same.) -/
def CarModelClassifier.detect_classifier_hidden_size (checkpoint : Checkpoint) : Nat :=
  let state_dict := checkpoint.model_state_dict.getD []
  match dictGet "classifier.1.weight" state_dict with
  | some t => t.shape0
  | none => 512

/-- Substring test over character lists, the semantics of Python's
`pat in s` for a nonempty pattern. -/
def containsSub (pat : List Char) : List Char → Bool
  | [] => pat.isEmpty
  | c :: rest => pat.isPrefixOf (c :: rest) || containsSub pat rest

/-- Worker for `replaceAllChars`, structurally recursive on a fuel bound:
scanning consumes one unit of fuel per step, and removing a nonempty
occurrence shortens the list by at least as much, so fuel equal to the
input length never runs out and the fuel-exhausted arm is unreachable. -/
def replaceAllCharsGo (pat : List Char) : Nat → List Char → List Char
  | _, [] => []
  | 0, l => l
  | fuel + 1, c :: rest =>
    if pat.isPrefixOf (c :: rest) ∧ pat ≠ [] then
      replaceAllCharsGo pat fuel ((c :: rest).drop pat.length)
    else
      c :: replaceAllCharsGo pat fuel rest

/-- Python `s.replace(pat, "")`: remove every (non-overlapping, leftmost
first) occurrence of `pat` from a nonempty pattern. -/
def replaceAllChars (pat : List Char) (l : List Char) : List Char :=
  replaceAllCharsGo pat l.length l

/-- `pathlib.Path.stem` for the names this service globs (`*.pth`): the
name with its final extension removed. -/
def pyStem (name : String) : String :=
  let l := name.data
  let pre := ((l.reverse.dropWhile (fun c => c ≠ '.')).drop 1).reverse
  if l.contains '.' ∧ pre ≠ [] then ⟨pre⟩ else ⟨l⟩

/-- `FileUtils.normalize_brand_name`: replace spaces, hyphens and slashes
with underscores. -/
def FileUtils.normalize_brand_name (brand : String) : String :=
  ⟨brand.data.map (fun c =>
      if c = ' ' then '_' else if c = '-' then '_' else if c = '/' then '_' else c)⟩

/-- Outcome of the download attempt inside the `try` block of
`ModelDownloader.download_from_drive` (directory creation plus the
`gdown.download` call): either an exception is raised, or the call
completes leaving the destination in the given state (present or not,
with the given size in bytes). -/
inductive GdownOutcome where
  | raises (msg : String)
  | completes (fileExists : Bool) (sizeBytes : Nat)
deriving DecidableEq, Repr

/-- `ModelDownloader.download_from_drive`.  Mirrors the source: an invalid
URL raises `ValueError` (caught, `False`); an exception during the
transfer is caught (`False`); a missing destination after transfer raises
`FileNotFoundError` (caught, `False`); otherwise the size is computed for
logging only and `True` is returned — the size is never validated. -/
def ModelDownloader.download_from_drive (drive_url : String) (gdown : GdownOutcome) : Bool :=
  if drive_url = "" || containsSub "SEU_FILE_ID".data drive_url.data then false
  else
    match gdown with
    | .raises _ => false
    | .completes fileExists _ => if fileExists then true else false

/-- The network object produced by
`CarModelClassifier._create_model_architecture`: backbone variant, its
classifier input-feature width, and the replaced head's dimensions. -/
structure NetworkArch where
  backbone : String
  num_features : Nat
  hidden_size : Nat
  num_classes : Nat
deriving DecidableEq, Repr

/-- `CarModelClassifier._create_model_architecture`: build the named
backbone (unknown names fall back to efficientnet_b0) and replace its
classifier head with dropout → linear(features→hidden) → relu →
batchnorm → dropout → linear(hidden→num_classes). -/
def CarModelClassifier.create_model_architecture
    (arch_name : String) (num_classes : Nat) (hidden_size : Nat) : NetworkArch :=
  let backbone :=
    if arch_name = "efficientnet_b0" then "efficientnet_b0"
    else if arch_name = "efficientnet_b3" then "efficientnet_b3"
    else "efficientnet_b0"
  let num_features := if backbone = "efficientnet_b3" then 1536 else 1280
  ⟨backbone, num_features, hidden_size, num_classes⟩

/-- One value of the in-memory cache `self.loaded_models[brand]`:
the built network, the index map and the `model_info` metadata. -/
structure BrandEntry where
  model : NetworkArch
  idx_to_model : List (IdxKey × String)
  brand_name : String
  num_classes : Nat
  best_val_acc : ℚ
  architecture : String
deriving DecidableEq, Repr

/-- The in-memory model cache `self.loaded_models`. -/
def Cache : Type := List (String × BrandEntry)

/-- Environment of one `_load_brand_model` call: the outcomes of its
I/O-dependent steps.  `diskHas` is `model_path.exists()`, `driveUrl` is
`ModelDownloader.get_brand_model_url(brand)` (configuration lookup),
`gdown` the transfer outcome, `torchLoad` the `torch.load` outcome, and
`loadWeights` the outcome of the strict `load_state_dict` (shape
mismatches raise here). -/
structure LoadEnv where
  diskHas : Bool
  driveUrl : Option String
  gdown : GdownOutcome
  torchLoad : Except String Checkpoint
  loadWeights : Except String Unit

/-- `CarModelClassifier._download_brand_model`: succeed immediately when
the file exists, fail when no URL is configured, otherwise download. -/
def CarModelClassifier.download_brand_model (env : LoadEnv) : Bool :=
  if env.diskHas then true
  else
    match env.driveUrl with
    | none => false
    | some url => ModelDownloader.download_from_drive url env.gdown

/-- Result of one `_load_brand_model` call: the returned entry or the
raised exception, the cache afterwards, whether the disk/download
resolution path ran (i.e. the call was not served from cache), and
instrumentation counters for network downloads and network builds. -/
structure LoadOutcome where
  result : Except String BrandEntry
  cache : List (String × BrandEntry)
  fetchAttempted : Bool
  downloadCalls : Nat
  buildCalls : Nat

/-- `CarModelClassifier._load_brand_model`, line by line: cache check;
existence check plus `_download_brand_model` on miss (raising
`RuntimeError` when it fails); `torch.load`; metadata extraction with the
`class_to_idx` fallback for an empty `idx_to_model`; architecture and
hidden-size detection; network build; strict weight load
(`checkpoint['model_state_dict']` raises `KeyError` when absent); and
only then the cache insert. -/
def CarModelClassifier.load_brand_model
    (cache : List (String × BrandEntry)) (brand : String) (env : LoadEnv) : LoadOutcome :=
  match dictGet brand cache with
  | some entry => ⟨.ok entry, cache, false, 0, 0⟩
  | none =>
    let downloadCalls :=
      if env.diskHas then 0 else match env.driveUrl with | none => 0 | some _ => 1
    if ¬ env.diskHas ∧ CarModelClassifier.download_brand_model env = false then
      ⟨.error ("Não foi possível obter modelo para: " ++ brand), cache, true, downloadCalls, 0⟩
    else
      match env.torchLoad with
      | .error e => ⟨.error e, cache, true, downloadCalls, 0⟩
      | .ok checkpoint =>
        let brand_name := checkpoint.brand_name.getD brand
        let num_classes := checkpoint.num_classes.getD 0
        let best_val_acc := checkpoint.best_val_acc.getD 0
        let idx0 := checkpoint.idx_to_model.getD []
        let idx_to_model :=
          if idx0 = [] then
            (checkpoint.class_to_idx.getD []).map (fun q => (IdxKey.kint q.2, q.1))
          else idx0
        let arch_name := CarModelClassifier.detect_model_architecture checkpoint
        let hidden_size := CarModelClassifier.detect_classifier_hidden_size checkpoint
        let model := CarModelClassifier.create_model_architecture arch_name num_classes hidden_size
        match checkpoint.model_state_dict with
        | none => ⟨.error "KeyError: 'model_state_dict'", cache, true, downloadCalls, 1⟩
        | some _ =>
          match env.loadWeights with
          | .error e => ⟨.error e, cache, true, downloadCalls, 1⟩
          | .ok _ =>
            let entry : BrandEntry :=
              ⟨model, idx_to_model, brand_name, num_classes, best_val_acc, arch_name⟩
            ⟨.ok entry, dictSet cache brand entry, true, downloadCalls, 1⟩

/-- Python 3 `round` to an integer: round half to even.  The fractional
part `x - ⌊x⌋ = (num - ⌊x⌋·den)/den` is compared with 1/2 by comparing
`2·(num - ⌊x⌋·den)` with `den`, keeping everything in integer arithmetic. -/
def roundHalfEven (x : ℚ) : ℤ :=
  let f : ℤ := Rat.floor x
  let rtwice : ℤ := 2 * (x.num - f * (x.den : ℤ))
  if rtwice < (x.den : ℤ) then f
  else if (x.den : ℤ) < rtwice then f + 1
  else if f % 2 = 0 then f else f + 1

/-- `q * n` for a natural `n`, written via `mkRat` (which normalizes, so
the value is the same) because `Rat.mul` is `@[irreducible]` and concrete
values could not otherwise be evaluated inside the kernel. -/
def ratMulNat (q : ℚ) (n : Nat) : ℚ := mkRat (q.num * (n : ℤ)) q.den

/-- Python `round(x, 2)`. -/
def pyRound2 (x : ℚ) : ℚ := mkRat (roundHalfEven (ratMulNat x 100)) 100

/-- Insert a (probability, index) pair into a list sorted by descending
probability, ties broken by ascending index. -/
def insertRanked (x : ℚ × Nat) : List (ℚ × Nat) → List (ℚ × Nat)
  | [] => [x]
  | y :: ys =>
    if y.1 < x.1 ∨ (x.1 = y.1 ∧ x.2 < y.2) then x :: y :: ys
    else y :: insertRanked x ys

/-- All (probability, index) pairs of a probability vector, sorted by
descending probability with ties broken by ascending index. -/
def rankIndices (probs : List ℚ) : List (ℚ × Nat) :=
  (probs.enum.map (fun q => (q.2, q.1))).foldr insertRanked []

/-- `torch.topk(probabilities, k)` along the class dimension: the `k`
highest (probability, index) pairs; raises when `k` exceeds the number of
classes in the vector. -/
def torchTopk (probs : List ℚ) (k : Nat) : Except String (List (ℚ × Nat)) :=
  if k ≤ probs.length then .ok ((rankIndices probs).take k)
  else .error "selected index k out of range"

/-- The per-entry name resolution inside `CarModelClassifier.predict`:
probe the type of the first key of `idx_to_model`
(`isinstance(list(idx_to_model.keys())[0], str)` — an `IndexError` on an
empty dict), then `get` with default `"Unknown_<index>"` under the
matching key type. -/
def lookupModelName (idx_to_model : List (IdxKey × String)) (class_idx : Nat) :
    Except String String :=
  match idx_to_model with
  | [] => .error "list index out of range"
  | (k, _) :: _ =>
    match k with
    | .kstr _ =>
      .ok ((dictGet (IdxKey.kstr (toString class_idx)) idx_to_model).getD
        ("Unknown_" ++ toString class_idx))
    | .kint _ =>
      .ok ((dictGet (IdxKey.kint class_idx) idx_to_model).getD
        ("Unknown_" ++ toString class_idx))

/-- One element of the `predictions` list built by
`CarModelClassifier.predict`. -/
structure Prediction where
  rank : Nat
  brand : String
  model : String
  brand_model : String
  confidence : ℚ
  confidence_percent : ℚ
deriving DecidableEq, Repr

/-- The result-formatting loop of `CarModelClassifier.predict`
(`for i in range(len(top_indices[0])): ...`), with `i` the running loop
index. -/
def formatGo (brand : String) (idx_to_model : List (IdxKey × String)) (i : Nat) :
    List (ℚ × Nat) → Except String (List Prediction)
  | [] => .ok []
  | (prob, class_idx) :: rest =>
    match lookupModelName idx_to_model class_idx with
    | .error e => .error e
    | .ok model_name =>
      match formatGo brand idx_to_model (i + 1) rest with
      | .error e => .error e
      | .ok ps =>
        .ok (⟨i + 1, brand, model_name, brand ++ " " ++ model_name,
              prob, pyRound2 (ratMulNat prob 100)⟩ :: ps)

/-- The whole formatting loop, started at loop index 0. -/
def formatPredictions (brand : String) (idx_to_model : List (IdxKey × String))
    (pairs : List (ℚ × Nat)) : Except String (List Prediction) :=
  formatGo brand idx_to_model 0 pairs

/-- The `model_info` block of a successful `predict` result. -/
structure PredictModelInfo where
  brand : String
  accuracy : ℚ
  total_classes : Nat
deriving DecidableEq, Repr

/-- The dictionary returned by `CarModelClassifier.predict`: either
`{'success': True, 'predictions': ..., 'model_info': ...}` or
`{'success': False, 'error': ...}`. -/
structure PredictResult where
  success : Bool
  predictions : Option (List Prediction)
  model_info : Option PredictModelInfo
  error : Option String
deriving DecidableEq, Repr

/-- Environment of one `predict` call: the load environment plus the
outcome of preprocessing, the forward pass and the softmax (the
probability vector over the model's output classes). -/
structure PredictEnv where
  load : LoadEnv
  forward : Except String (List ℚ)

/-- `CarModelClassifier.predict`: load (or fetch from cache) the brand
model, run the forward pass, take
`torch.topk(probabilities, min(top_k, len(idx_to_model)))`, format the
entries, and wrap everything in the `try`/`except` that turns any raised
exception into `{'success': False, 'error': str(e)}`. -/
def CarModelClassifier.predict (cache : List (String × BrandEntry)) (brand : String)
    (top_k : Nat) (env : PredictEnv) : PredictResult × List (String × BrandEntry) :=
  let lo := CarModelClassifier.load_brand_model cache brand env.load
  match lo.result with
  | .error e => (⟨false, none, none, some e⟩, lo.cache)
  | .ok entry =>
    match env.forward with
    | .error e => (⟨false, none, none, some e⟩, lo.cache)
    | .ok probabilities =>
      match torchTopk probabilities (min top_k entry.idx_to_model.length) with
      | .error e => (⟨false, none, none, some e⟩, lo.cache)
      | .ok pairs =>
        match formatPredictions brand entry.idx_to_model pairs with
        | .error e => (⟨false, none, none, some e⟩, lo.cache)
        | .ok preds =>
          (⟨true, some preds, some ⟨brand, entry.best_val_acc, entry.num_classes⟩, none⟩,
            lo.cache)

/-- One element of the `models` list of
`CarModelClassifier.get_loaded_models_info`. -/
structure ModelsInfoEntry where
  brand : String
  status : String
  in_memory : Bool
  size_mb : Option ℚ
deriving DecidableEq, Repr

/-- The dictionary returned by `CarModelClassifier.get_loaded_models_info`. -/
structure ModelsInfo where
  total_in_memory : Nat
  total_on_disk : Nat
  models : List ModelsInfoEntry
deriving DecidableEq, Repr

/-- `CarModelClassifier.get_loaded_models_info`.  `disk_files` is the
result of `FileUtils.list_files_by_extension(models_dir, '.pth')`:
filename and size in MB per file.  Cache-resident brands are listed
first; each disk file is reduced to a brand by taking its stem and
removing `'_efficientnet_b3'`, and is listed only when that derived name
is not a cache key. -/
def CarModelClassifier.get_loaded_models_info
    (cache : List (String × BrandEntry)) (disk_files : List (String × ℚ)) : ModelsInfo :=
  let cached := cache.map (fun q => ModelsInfoEntry.mk q.1 "loaded" true none)
  let diskEntries := disk_files.filterMap (fun f =>
    let brand : String := ⟨replaceAllChars "_efficientnet_b3".data (pyStem f.1).data⟩
    if (dictGet brand cache).isSome then none
    else some (ModelsInfoEntry.mk brand "on_disk" false (some (pyRound2 f.2))))
  ⟨cache.length, disk_files.length, cached ++ diskEntries⟩

/-!
Interleaving model of two threads concurrently inside
`CarModelClassifier._load_brand_model` for the same absent brand.  The
source guards nothing: the cache-membership check (line 213) and the
cache insert (line 260) are separated by blocking I/O (download,
`torch.load`) during which the interpreter lock is released and the other
thread runs.  A thread is therefore in one of three phases: before the
membership check, after having fetched the checkpoint and built the
network (suspended in I/O), or finished.
-/

/-- Phase of one thread inside `_load_brand_model`. -/
inductive LoadPhase where
  | start
  | fetched
  | finished
deriving DecidableEq, Repr

/-- Shared state of two threads loading the same brand: whether the brand
key is in `self.loaded_models`, each thread's phase, and instrumentation
counting Checkpoint Store fetches and Network Builder builds. -/
structure TwoCallerState where
  cached : Bool
  pcA : LoadPhase
  pcB : LoadPhase
  fetchCount : Nat
  buildCount : Nat
deriving DecidableEq, Repr

/-- Both threads at the membership check, brand absent, nothing fetched. -/
def initTwoCallers : TwoCallerState := ⟨false, .start, .start, 0, 0⟩

/-- One atomic step of a thread: the membership check either returns the
cached entry (hit) or proceeds to fetch the checkpoint and build the
network (one fetch, one build, then the thread suspends in I/O); a thread
that fetched performs the cache insert and returns. -/
def stepPhase : LoadPhase → Bool → LoadPhase × Bool × Nat × Nat
  | .start, true => (.finished, true, 0, 0)
  | .start, false => (.fetched, false, 1, 1)
  | .fetched, _ => (.finished, true, 0, 0)
  | .finished, c => (.finished, c, 0, 0)

/-- Run one step of thread A (`true`) or thread B (`false`). -/
def stepCaller (s : TwoCallerState) (a : Bool) : TwoCallerState :=
  if a then
    let r := stepPhase s.pcA s.cached
    ⟨r.2.1, r.1, s.pcB, s.fetchCount + r.2.2.1, s.buildCount + r.2.2.2⟩
  else
    let r := stepPhase s.pcB s.cached
    ⟨r.2.1, s.pcA, r.1, s.fetchCount + r.2.2.1, s.buildCount + r.2.2.2⟩

/-- Run a schedule (a list of thread choices). -/
def runSchedule (sched : List Bool) (s : TwoCallerState) : TwoCallerState :=
  sched.foldl stepCaller s

/-! Concrete fixtures used by witnesses and counterexamples. -/

/-- A small built network. -/
def exNetwork : NetworkArch := ⟨"efficientnet_b0", 1280, 512, 1⟩

/-- A cache entry with a one-class index map. -/
def exEntry : BrandEntry := ⟨exNetwork, [(.kint 0, "A3")], "Audi", 1, 0, "efficientnet_b0"⟩

/-- A cache entry whose `idx_to_model` is empty. -/
def exEntryNoIdx : BrandEntry := ⟨exNetwork, [], "Audi", 1, 0, "efficientnet_b0"⟩

/-- A load environment whose fields are never reached (cache hits). -/
def exLoadEnv : LoadEnv := ⟨true, none, .raises "net", .error "unused", .ok ()⟩

/-- A load environment in which every resolution step fails: the file is
absent and no remote URL is configured. -/
def exFailEnv : LoadEnv := ⟨false, none, .raises "net", .error "eof", .ok ()⟩

/-- A minimal checkpoint that loads successfully: a present (empty)
`model_state_dict` and every other key absent. -/
def exOkCp : Checkpoint := { Checkpoint.empty with model_state_dict := some ([] : List (String × Tensor)) }

/-- A load environment in which every step succeeds from the local file. -/
def exOkEnv : LoadEnv := ⟨true, none, .raises "net", .ok exOkCp, .ok ()⟩

/-- The entry `_load_brand_model` builds from `exOkCp` for brand "BMW". -/
def exOkEntry : BrandEntry :=
  ⟨⟨"efficientnet_b0", 1280, 512, 0⟩, [], "BMW", 0, 0, "efficientnet_b0"⟩

/-- C3: architecture inference returns the explicit `'architecture'` tag
when present; otherwise a `features.8.0.weight` leading dimension of 1280
yields `'efficientnet_b0'` and 1536 yields `'efficientnet_b3'`; any other
leading dimension, or absence of the tensor, yields the configured
default — `'efficientnet_b0'` for the per-brand classifier and
`'efficientnet_b3'` for the brand classifier. -/
theorem detect_model_architecture_spec (cp : Checkpoint) :
    (∀ a, cp.architecture = some a →
        CarModelClassifier.detect_model_architecture cp = a
        ∧ BrandClassifier.detect_model_architecture cp = a)
    ∧ (cp.architecture = none → ∀ t,
        dictGet "features.8.0.weight" (cp.model_state_dict.getD []) = some t →
          ((t.shape0 = 1280 →
              CarModelClassifier.detect_model_architecture cp = "efficientnet_b0"
              ∧ BrandClassifier.detect_model_architecture cp = "efficientnet_b0")
          ∧ (t.shape0 = 1536 →
              CarModelClassifier.detect_model_architecture cp = "efficientnet_b3"
              ∧ BrandClassifier.detect_model_architecture cp = "efficientnet_b3")
          ∧ (t.shape0 ≠ 1280 → t.shape0 ≠ 1536 →
              CarModelClassifier.detect_model_architecture cp = "efficientnet_b0"
              ∧ BrandClassifier.detect_model_architecture cp = "efficientnet_b3")))
    ∧ (cp.architecture = none →
        dictGet "features.8.0.weight" (cp.model_state_dict.getD []) = none →
          CarModelClassifier.detect_model_architecture cp = "efficientnet_b0"
          ∧ BrandClassifier.detect_model_architecture cp = "efficientnet_b3") := by
  refine ⟨?_, ?_, ?_⟩
  · intro a ha
    simp [CarModelClassifier.detect_model_architecture,
      BrandClassifier.detect_model_architecture, ha]
  · intro ha t ht
    refine ⟨?_, ?_, ?_⟩
    · intro h
      simp [CarModelClassifier.detect_model_architecture,
        BrandClassifier.detect_model_architecture, ha, ht, h]
    · intro h
      simp [CarModelClassifier.detect_model_architecture,
        BrandClassifier.detect_model_architecture, ha, ht, h]
    · intro h1 h2
      simp [CarModelClassifier.detect_model_architecture,
        BrandClassifier.detect_model_architecture, ha, ht, h1, h2]
  · intro ha ht
    simp [CarModelClassifier.detect_model_architecture,
      BrandClassifier.detect_model_architecture, ha, ht]

/-- Witness for C3: the four regimes (explicit tag, 1280, 1536, other
dimension, tensor absent) at concrete checkpoints. -/
theorem detect_model_architecture_spec_witness :
    (CarModelClassifier.detect_model_architecture
        { Checkpoint.empty with architecture := some "resnet" } = "resnet")
    ∧ (CarModelClassifier.detect_model_architecture
        { Checkpoint.empty with
            model_state_dict := some [("features.8.0.weight", ⟨1280, [320, 1, 1]⟩)] }
        = "efficientnet_b0")
    ∧ (BrandClassifier.detect_model_architecture
        { Checkpoint.empty with
            model_state_dict := some [("features.8.0.weight", ⟨1536, [384, 1, 1]⟩)] }
        = "efficientnet_b3")
    ∧ (CarModelClassifier.detect_model_architecture
        { Checkpoint.empty with
            model_state_dict := some [("features.8.0.weight", ⟨777, []⟩)] }
        = "efficientnet_b0")
    ∧ (BrandClassifier.detect_model_architecture
        { Checkpoint.empty with
            model_state_dict := some [("features.8.0.weight", ⟨777, []⟩)] }
        = "efficientnet_b3")
    ∧ (BrandClassifier.detect_model_architecture Checkpoint.empty = "efficientnet_b3") := by
  refine ⟨?_, ?_, ?_, ?_, ?_, ?_⟩
  · exact ((detect_model_architecture_spec _).1 "resnet" rfl).1
  · exact (((detect_model_architecture_spec _).2.1 rfl ⟨1280, [320, 1, 1]⟩ (by decide)).1
      rfl).1
  · exact (((detect_model_architecture_spec _).2.1 rfl ⟨1536, [384, 1, 1]⟩ (by decide)).2.1
      rfl).2
  · exact (((detect_model_architecture_spec _).2.1 rfl ⟨777, []⟩ (by decide)).2.2
      (by decide) (by decide)).1
  · exact (((detect_model_architecture_spec _).2.1 rfl ⟨777, []⟩ (by decide)).2.2
      (by decide) (by decide)).2
  · exact ((detect_model_architecture_spec Checkpoint.empty).2.2 rfl rfl).2

/-- C4: hidden-size inference returns the leading shape entry of
`classifier.1.weight` when that tensor is present, and the default 512
when it is absent. -/
theorem detect_classifier_hidden_size_spec (cp : Checkpoint) :
    (∀ t, dictGet "classifier.1.weight" (cp.model_state_dict.getD []) = some t →
        CarModelClassifier.detect_classifier_hidden_size cp = t.shape0)
    ∧ (dictGet "classifier.1.weight" (cp.model_state_dict.getD []) = none →
        CarModelClassifier.detect_classifier_hidden_size cp = 512) := by
  constructor
  · intro t ht
    simp [CarModelClassifier.detect_classifier_hidden_size, ht]
  · intro ht
    simp [CarModelClassifier.detect_classifier_hidden_size, ht]

/-- Witness for C4: a 256-wide head is detected, and absence yields 512. -/
theorem detect_classifier_hidden_size_spec_witness :
    (CarModelClassifier.detect_classifier_hidden_size
        { Checkpoint.empty with
            model_state_dict := some [("classifier.1.weight", ⟨256, [1280]⟩)] } = 256)
    ∧ CarModelClassifier.detect_classifier_hidden_size Checkpoint.empty = 512 := by
  constructor
  · exact (detect_classifier_hidden_size_spec _).1 ⟨256, [1280]⟩ (by decide)
  · exact (detect_classifier_hidden_size_spec _).2 rfl

/-- Appending a fresh key to an association list makes it retrievable. -/
theorem dictGet_append_self {α β : Type} [DecidableEq α] (k : α) (v : β) :
    ∀ (m : List (α × β)), dictGet k m = none → dictGet k (m ++ [(k, v)]) = some v
  | [], _ => by simp [dictGet]
  | (a, b) :: rest, h => by
    by_cases hak : a = k
    · simp [dictGet, hak] at h
    · simp only [List.cons_append, dictGet, if_neg hak] at h ⊢
      exact dictGet_append_self k v rest h

/-- Assigning an absent key appends it. -/
theorem dictSet_of_none {α β : Type} [DecidableEq α] {m : List (α × β)} {k : α} (v : β)
    (h : dictGet k m = none) : dictSet m k v = m ++ [(k, v)] := by
  simp [dictSet, h]

/-- Case analysis of `_load_brand_model`: a cache hit returns the entry
and touches nothing; a miss either fails leaving the cache unchanged or
succeeds having fetched, built once, and inserted the new entry. -/
theorem load_brand_model_spec (cache : List (String × BrandEntry)) (brand : String)
    (env : LoadEnv) :
    (∃ ent, dictGet brand cache = some ent
        ∧ CarModelClassifier.load_brand_model cache brand env = ⟨.ok ent, cache, false, 0, 0⟩)
    ∨ (dictGet brand cache = none
        ∧ ((∃ e d b, CarModelClassifier.load_brand_model cache brand env
              = ⟨.error e, cache, true, d, b⟩)
           ∨ (∃ ent d, CarModelClassifier.load_brand_model cache brand env
              = ⟨.ok ent, dictSet cache brand ent, true, d, 1⟩))) := by
  cases hcg : dictGet brand cache with
  | some ent =>
    exact Or.inl ⟨ent, rfl, by simp [CarModelClassifier.load_brand_model, hcg]⟩
  | none =>
    refine Or.inr ⟨rfl, ?_⟩
    simp only [CarModelClassifier.load_brand_model, hcg]
    split
    · exact Or.inl ⟨_, _, _, rfl⟩
    · split
      · exact Or.inl ⟨_, _, _, rfl⟩
      · split
        · exact Or.inl ⟨_, _, _, rfl⟩
        · split
          · exact Or.inl ⟨_, _, _, rfl⟩
          · exact Or.inr ⟨_, _, rfl⟩

/-- A call that misses the cache always runs the disk/download resolution
path. -/
theorem load_brand_model_miss_fetches {cache : List (String × BrandEntry)} {brand : String}
    (env : LoadEnv) (h : dictGet brand cache = none) :
    (CarModelClassifier.load_brand_model cache brand env).fetchAttempted = true := by
  rcases load_brand_model_spec cache brand env with ⟨ent, hcg, _⟩ | ⟨_, h2⟩
  · rw [hcg] at h; cases h
  · rcases h2 with ⟨e, d, b, heq⟩ | ⟨ent, d, heq⟩ <;> simp [heq]

/-- C2: a failed load of a brand leaves the cache without an entry for it
(and in fact unchanged), a subsequent call for the same brand runs the
fetch path again instead of returning a cached failure, and an entry for
the brand is present after the call only if the load fully succeeded and
returned exactly that entry. -/
theorem load_brand_model_failure_leaves_cache_consistent
    (cache : List (String × BrandEntry)) (brand : String) (env env2 : LoadEnv) :
    (∀ e, (CarModelClassifier.load_brand_model cache brand env).result = .error e →
        (CarModelClassifier.load_brand_model cache brand env).cache = cache
        ∧ dictGet brand cache = none
        ∧ (CarModelClassifier.load_brand_model
            (CarModelClassifier.load_brand_model cache brand env).cache brand
            env2).fetchAttempted = true)
    ∧ (∀ ent, dictGet brand cache = none →
        dictGet brand (CarModelClassifier.load_brand_model cache brand env).cache = some ent →
        (CarModelClassifier.load_brand_model cache brand env).result = .ok ent) := by
  constructor
  · intro e he
    rcases load_brand_model_spec cache brand env with ⟨ent, hcg, heq⟩ | ⟨hcg, h2⟩
    · simp [heq] at he
    · rcases h2 with ⟨e2, d, b, heq⟩ | ⟨ent, d, heq⟩
      · refine ⟨by simp [heq], hcg, ?_⟩
        rw [show (CarModelClassifier.load_brand_model cache brand env).cache = cache from
          by simp [heq]]
        exact load_brand_model_miss_fetches env2 hcg
      · simp [heq] at he
  · intro ent hnone hsome
    rcases load_brand_model_spec cache brand env with ⟨ent2, hcg, heq⟩ | ⟨hcg, h2⟩
    · rw [hcg] at hnone; cases hnone
    · rcases h2 with ⟨e2, d, b, heq⟩ | ⟨ent2, d, heq⟩
      · rw [heq] at hsome
        simp only at hsome
        rw [hnone] at hsome; cases hsome
      · rw [heq] at hsome ⊢
        simp only at hsome ⊢
        rw [dictSet_of_none ent2 hnone, dictGet_append_self brand ent2 cache hnone] at hsome
        cases hsome
        rfl

/-- Witness for C2: a failing load (file absent, no URL configured) at an
empty cache, and a succeeding load whose entry is installed. -/
theorem load_brand_model_failure_witness :
    ((CarModelClassifier.load_brand_model [] "BMW" exFailEnv).cache = []
      ∧ dictGet "BMW" ([] : List (String × BrandEntry)) = none
      ∧ (CarModelClassifier.load_brand_model
          (CarModelClassifier.load_brand_model [] "BMW" exFailEnv).cache "BMW"
          exFailEnv).fetchAttempted = true)
    ∧ (CarModelClassifier.load_brand_model [] "BMW" exOkEnv).result = .ok exOkEntry := by
  constructor
  · exact (load_brand_model_failure_leaves_cache_consistent [] "BMW" exFailEnv exFailEnv).1
      ("Não foi possível obter modelo para: " ++ "BMW") rfl
  · exact (load_brand_model_failure_leaves_cache_consistent [] "BMW" exOkEnv exFailEnv).2
      exOkEntry rfl rfl

/-- C1 (race in the unguarded load path): under the interleaving in which
both threads pass the cache-membership check before either inserts, the
two concurrent `_load_brand_model` calls for the same absent brand issue
two Checkpoint Store fetches and two Network Builder builds — the code
has no per-brand claim, so the "at most one fetch / one build" bound is
violated at concurrency degree 2. -/
theorem load_brand_model_race_duplicate_fetches :
    (runSchedule [true, false, true, false] initTwoCallers).fetchCount = 2
    ∧ (runSchedule [true, false, true, false] initTwoCallers).buildCount = 2 := by
  constructor <;> rfl

/-- C7 counterexample: after a transfer that completes leaving an existing
but empty (zero-byte) artifact, `download_from_drive` reports success —
the source checks only `destination.exists()` and never the size, so the
claimed corrupt-artifact failure on an empty artifact does not happen. -/
theorem download_from_drive_accepts_empty_artifact :
    ModelDownloader.download_from_drive "https://drive.google.com/uc?id=abc123"
      (GdownOutcome.completes true 0) = true := rfl

/-- C7 amended: the download fails (returns failure) on any I/O or network
error raised during the transfer, and fails when the artifact is absent
after the transfer; an existing empty artifact is not detected. -/
theorem download_from_drive_failure_modes (drive_url : String) (msg : String) (sz : Nat) :
    ModelDownloader.download_from_drive drive_url (GdownOutcome.raises msg) = false
    ∧ ModelDownloader.download_from_drive drive_url (GdownOutcome.completes false sz)
      = false := by
  refine ⟨?_, ?_⟩ <;> (unfold ModelDownloader.download_from_drive; split <;> rfl)

/-- C9: `predict` never raises — for every cache, brand, `top_k` and
outcome of every fallible step, it returns either a success dictionary
(with predictions and no error) or a failure dictionary (with an error
string and no predictions). -/
theorem predict_never_raises (cache : List (String × BrandEntry)) (brand : String)
    (top_k : Nat) (env : PredictEnv) :
    ((CarModelClassifier.predict cache brand top_k env).1.success = true
      ∧ ((CarModelClassifier.predict cache brand top_k env).1.predictions).isSome = true
      ∧ (CarModelClassifier.predict cache brand top_k env).1.error = none)
    ∨ ((CarModelClassifier.predict cache brand top_k env).1.success = false
      ∧ ((CarModelClassifier.predict cache brand top_k env).1.error).isSome = true
      ∧ (CarModelClassifier.predict cache brand top_k env).1.predictions = none) := by
  simp only [CarModelClassifier.predict]
  split
  · exact Or.inr ⟨rfl, rfl, rfl⟩
  · split
    · exact Or.inr ⟨rfl, rfl, rfl⟩
    · split
      · exact Or.inr ⟨rfl, rfl, rfl⟩
      · split
        · exact Or.inr ⟨rfl, rfl, rfl⟩
        · exact Or.inl ⟨rfl, rfl, rfl⟩

/-- C10: when the loaded model's `idx_to_model` is empty the formatting
loop runs zero times, the first-key type probe is never evaluated, and
the call returns success with an empty prediction list. -/
theorem predict_empty_index_map (cache : List (String × BrandEntry)) (brand : String)
    (top_k : Nat) (env : PredictEnv) (entry : BrandEntry) (probs : List ℚ)
    (hl : (CarModelClassifier.load_brand_model cache brand env.load).result = .ok entry)
    (hidx : entry.idx_to_model = [])
    (hf : env.forward = .ok probs) :
    (CarModelClassifier.predict cache brand top_k env).1.success = true
    ∧ (CarModelClassifier.predict cache brand top_k env).1.predictions = some [] := by
  have htop : torchTopk probs 0 = .ok [] := by
    unfold torchTopk
    rw [if_pos (Nat.zero_le _)]
    simp
  simp only [CarModelClassifier.predict, hl, hf, hidx, List.length_nil, Nat.min_zero, htop]
  simp [formatPredictions, formatGo]

/-- Witness for C10: a cached entry with an empty index map yields
`success = True` and `predictions = []`. -/
theorem predict_empty_index_map_witness :
    (CarModelClassifier.predict [("Audi", exEntryNoIdx)] "Audi" 5
        ⟨exLoadEnv, .ok [1]⟩).1.success = true
    ∧ (CarModelClassifier.predict [("Audi", exEntryNoIdx)] "Audi" 5
        ⟨exLoadEnv, .ok [1]⟩).1.predictions = some [] :=
  predict_empty_index_map [("Audi", exEntryNoIdx)] "Audi" 5 ⟨exLoadEnv, .ok [1]⟩
    exEntryNoIdx [1] rfl rfl rfl

/-- On a nonempty index map the name resolution never raises. -/
theorem lookupModelName_ok_of_ne_nil (m : List (IdxKey × String)) (idx : Nat)
    (h : m ≠ []) : ∃ s, lookupModelName m idx = .ok s := by
  cases m with
  | nil => cases h rfl
  | cons kv rest =>
    obtain ⟨k, v⟩ := kv
    cases k with
    | kint n0 => exact ⟨_, rfl⟩
    | kstr s0 => exact ⟨_, rfl⟩

/-- The name `lookupModelName` resolves, with raising ruled out. -/
def resolvedName (m : List (IdxKey × String)) (idx : Nat) : String :=
  match lookupModelName m idx with
  | .ok s => s
  | .error _ => ""

/-- The formatting loop over a nonempty index map always succeeds and
produces, position by position, the prediction whose model name is the
resolved name of the selected index. -/
theorem formatGo_spec (brand : String) (m : List (IdxKey × String)) (h : m ≠ []) :
    ∀ (pairs : List (ℚ × Nat)) (i : Nat),
      ∃ ps, formatGo brand m i pairs = .ok ps
        ∧ ∀ j : Nat, (ps[j]?).map Prediction.model
            = (pairs[j]?).map (fun pr => resolvedName m pr.2) := by
  intro pairs
  induction pairs with
  | nil =>
    intro i
    exact ⟨[], rfl, by intro j; simp⟩
  | cons hd rest ih =>
    intro i
    obtain ⟨p, idxv⟩ := hd
    obtain ⟨s, hs⟩ := lookupModelName_ok_of_ne_nil m idxv h
    obtain ⟨ps, hps, hpt⟩ := ih (i + 1)
    refine ⟨⟨i + 1, brand, s, brand ++ " " ++ s, p, pyRound2 (ratMulNat p 100)⟩ :: ps, ?_, ?_⟩
    · simp only [formatGo, hs, hps]
    · intro j
      cases j with
      | zero => simp [resolvedName, hs]
      | succ j => simpa using hpt j

/-- C5: a selected class index with no entry in `idx_to_model` is reported
as `"Unknown_<index>"` instead of raising — both key regimes miss, the
`get` default fires, the formatting loop still succeeds, and the entry at
the position of the unmapped index carries the `Unknown` name. -/
theorem predict_unknown_index_reported (m : List (IdxKey × String)) (brand : String)
    (pairs : List (ℚ × Nat)) (idx : Nat)
    (hne : m ≠ [])
    (hs : dictGet (IdxKey.kstr (toString idx)) m = none)
    (hi : dictGet (IdxKey.kint idx) m = none) :
    lookupModelName m idx = .ok ("Unknown_" ++ toString idx)
    ∧ ∃ ps, formatPredictions brand m pairs = .ok ps
        ∧ ∀ (j : Nat) (p : ℚ), pairs[j]? = some (p, idx) →
            (ps[j]?).map Prediction.model = some ("Unknown_" ++ toString idx) := by
  have hlk : lookupModelName m idx = .ok ("Unknown_" ++ toString idx) := by
    cases m with
    | nil => cases hne rfl
    | cons kv rest =>
      obtain ⟨k, v⟩ := kv
      cases k with
      | kint n0 =>
        simp only [lookupModelName]
        rw [hi]
        rfl
      | kstr s0 =>
        simp only [lookupModelName]
        rw [hs]
        rfl
  refine ⟨hlk, ?_⟩
  obtain ⟨ps, hps, hpt⟩ := formatGo_spec brand m hne pairs 0
  refine ⟨ps, hps, ?_⟩
  intro j p hj
  rw [hpt j, hj]
  simp [resolvedName, hlk]

/-- Witness for C5: a one-entry integer-keyed map queried at the unmapped
index 7 yields `"Unknown_7"` and a successful prediction list. -/
theorem predict_unknown_index_witness :
    lookupModelName [(IdxKey.kint 0, "A3")] 7 = .ok ("Unknown_" ++ toString 7)
    ∧ ∃ ps, formatPredictions "Audi" [(IdxKey.kint 0, "A3")] [(1, 7)] = .ok ps
        ∧ (ps[0]?).map Prediction.model = some ("Unknown_" ++ toString 7) := by
  obtain ⟨h1, ps, h2, h3⟩ := predict_unknown_index_reported [(IdxKey.kint 0, "A3")]
    "Audi" [(1, 7)] 7 (by simp) rfl rfl
  exact ⟨h1, ps, h2, h3 0 1 rfl⟩

/-- Ranked insertion grows the list by one. -/
theorem insertRanked_length (x : ℚ × Nat) (l : List (ℚ × Nat)) :
    (insertRanked x l).length = l.length + 1 := by
  induction l with
  | nil => rfl
  | cons y ys ih =>
    simp only [insertRanked]
    split
    · simp
    · simp [ih]

/-- Ranking keeps all (probability, index) pairs: one per class. -/
theorem rankIndices_length (probs : List ℚ) : (rankIndices probs).length = probs.length := by
  unfold rankIndices
  have hfold : ∀ l : List (ℚ × Nat), (l.foldr insertRanked []).length = l.length := by
    intro l
    induction l with
    | nil => rfl
    | cons a as ih => simp [List.foldr, insertRanked_length, ih]
  rw [hfold]
  simp

/-- The formatting loop is length-preserving when it succeeds. -/
theorem formatGo_length (brand : String) (m : List (IdxKey × String)) :
    ∀ (pairs : List (ℚ × Nat)) (i : Nat) (ps : List Prediction),
      formatGo brand m i pairs = .ok ps → ps.length = pairs.length := by
  intro pairs
  induction pairs with
  | nil =>
    intro i ps h
    simp only [formatGo] at h
    cases h
    rfl
  | cons hd rest ih =>
    intro i ps h
    obtain ⟨p, idxv⟩ := hd
    simp only [formatGo] at h
    cases hlk : lookupModelName m idxv with
    | error e => rw [hlk] at h; cases h
    | ok s =>
      rw [hlk] at h
      cases hgo : formatGo brand m (i + 1) rest with
      | error e => rw [hgo] at h; cases h
      | ok ps2 =>
        rw [hgo] at h
        cases h
        simp [ih (i + 1) ps2 hgo]

/-- C6: a successful `predict` call returns at most `top_k` predictions
and never more than the model's class count: the top-k width is clamped
to the index-map size, and `torch.topk` itself raises (turning the call
into a failure) whenever the requested width exceeds the probability
vector's length, which equals the built network's class count. -/
theorem predict_topk_bounds (cache : List (String × BrandEntry)) (brand : String)
    (top_k : Nat) (env : PredictEnv) (entry : BrandEntry) (probs : List ℚ)
    (ps : List Prediction)
    (hl : (CarModelClassifier.load_brand_model cache brand env.load).result = .ok entry)
    (hf : env.forward = .ok probs)
    (hnc : probs.length = entry.num_classes)
    (hs : (CarModelClassifier.predict cache brand top_k env).1.predictions = some ps) :
    ps.length ≤ top_k ∧ ps.length ≤ entry.num_classes := by
  simp only [CarModelClassifier.predict, hl, hf] at hs
  cases htk : torchTopk probs (min top_k entry.idx_to_model.length) with
  | error e => rw [htk] at hs; cases hs
  | ok pairs =>
    simp only [htk] at hs
    have hk : min top_k entry.idx_to_model.length ≤ probs.length
        ∧ pairs = (rankIndices probs).take (min top_k entry.idx_to_model.length) := by
      unfold torchTopk at htk
      split at htk
      · refine ⟨by assumption, ?_⟩
        cases htk
        rfl
      · cases htk
    obtain ⟨hkle, hpairs⟩ := hk
    have hplen : pairs.length = min top_k entry.idx_to_model.length := by
      rw [hpairs]
      simp [List.length_take, rankIndices_length, Nat.min_eq_left hkle]
    cases hfm : formatPredictions brand entry.idx_to_model pairs with
    | error e => simp only [hfm] at hs; cases hs
    | ok preds =>
      simp only [hfm, Option.some.injEq] at hs
      subst hs
      have hlen := formatGo_length brand entry.idx_to_model pairs 0 preds hfm
      constructor
      · rw [hlen, hplen]
        exact Nat.min_le_left _ _
      · rw [hlen, hplen]
        exact hnc ▸ hkle

/-- Witness for C6: a concrete one-class model queried with `top_k = 5`
returns one prediction, within both bounds. -/
theorem predict_topk_bounds_witness :
    (CarModelClassifier.predict [("Audi", exEntry)] "Audi" 5
        ⟨exLoadEnv, .ok [1]⟩).1.predictions
      = some [⟨1, "Audi", "A3", "Audi A3", 1, 100⟩]
    ∧ ([(⟨1, "Audi", "A3", "Audi A3", 1, 100⟩ : Prediction)].length ≤ 5
        ∧ [(⟨1, "Audi", "A3", "Audi A3", 1, 100⟩ : Prediction)].length
            ≤ exEntry.num_classes) :=
  ⟨by decide,
    predict_topk_bounds [("Audi", exEntry)] "Audi" 5 ⟨exLoadEnv, .ok [1]⟩ exEntry [1]
      [⟨1, "Audi", "A3", "Audi A3", 1, 100⟩] rfl rfl rfl (by decide)⟩

/-- C8 counterexample: brand `"Alfa Romeo"` is cache-resident and its own
canonical checkpoint file (normalized brand + `'_efficientnet_b3.pth'`,
the name `_get_model_path` downloads to) is on disk, yet the snapshot
lists the brand twice — in memory under `"Alfa Romeo"` and again on disk
under `"Alfa_Romeo"` — because the dedup guard compares the stem-derived
name against the raw cache key. -/
theorem get_loaded_models_info_duplicate_listing :
    FileUtils.normalize_brand_name "Alfa Romeo" ++ "_efficientnet_b3.pth"
      = "Alfa_Romeo_efficientnet_b3.pth"
    ∧ (CarModelClassifier.get_loaded_models_info [("Alfa Romeo", exEntry)]
        [("Alfa_Romeo_efficientnet_b3.pth", 42)]).models
      = [⟨"Alfa Romeo", "loaded", true, none⟩,
         ⟨"Alfa_Romeo", "on_disk", false, some 42⟩] :=
  ⟨by decide, by decide⟩

/-- In an association list with distinct keys, a present key matches
exactly one element. -/
theorem dictGet_count_one {α β : Type} [DecidableEq α] (m : List (α × β)) (k : α)
    (hnodup : (m.map Prod.fst).Nodup) (hmem : (dictGet k m).isSome = true) :
    (m.filter (fun q => q.1 == k)).length = 1 := by
  induction m with
  | nil => simp [dictGet] at hmem
  | cons a rest ih =>
    obtain ⟨a1, a2⟩ := a
    simp only [List.map_cons, List.nodup_cons] at hnodup
    obtain ⟨hnotin, hnd⟩ := hnodup
    by_cases hak : a1 = k
    · subst hak
      have hrest : rest.filter (fun q => q.1 == a1) = [] := by
        rw [List.filter_eq_nil_iff]
        intro q hq
        simp only [beq_iff_eq]
        intro hq1
        exact hnotin (hq1 ▸ List.mem_map_of_mem Prod.fst hq)
      simp [List.filter_cons, hrest]
    · have hget : dictGet k ((a1, a2) :: rest) = dictGet k rest := by
        simp [dictGet, hak]
      rw [hget] at hmem
      simp [List.filter_cons, hak, ih hnd hmem]

/-- C8 amended: the snapshot deduplicates by exact string match between
the cache key and the disk-derived name (file stem with the architecture
tag removed): a cache-resident brand appears exactly once and is reported
as in-memory, and every on-disk entry's name is not a cache key — so a
brand whose name survives normalization unchanged is never double-listed,
while a brand whose name normalization rewrites is listed a second time
under the normalized name (see the counterexample). -/
theorem get_loaded_models_info_dedup_on_normalized (cache : List (String × BrandEntry))
    (disk_files : List (String × ℚ)) (B : String)
    (hnodup : (cache.map Prod.fst).Nodup)
    (hmem : (dictGet B cache).isSome = true) :
    ((CarModelClassifier.get_loaded_models_info cache disk_files).models.filter
        (fun ent => ent.brand == B)).length = 1
    ∧ (∀ ent ∈ (CarModelClassifier.get_loaded_models_info cache disk_files).models,
        ent.brand = B → ent.in_memory = true)
    ∧ (∀ ent ∈ (CarModelClassifier.get_loaded_models_info cache disk_files).models,
        ent.in_memory = false → dictGet ent.brand cache = none) := by
  have hdisk : ∀ ent ∈ disk_files.filterMap (fun f =>
      let brand : String := ⟨replaceAllChars "_efficientnet_b3".data (pyStem f.1).data⟩
      if (dictGet brand cache).isSome then none
      else some (ModelsInfoEntry.mk brand "on_disk" false (some (pyRound2 f.2)))),
      ent.in_memory = false ∧ dictGet ent.brand cache = none := by
    intro ent hent
    obtain ⟨f, hf, hsome⟩ := List.mem_filterMap.mp hent
    by_cases hc : (dictGet (⟨replaceAllChars "_efficientnet_b3".data (pyStem f.1).data⟩ :
        String) cache).isSome
    · simp only [hc, if_true] at hsome
      cases hsome
    · simp only [hc, if_false] at hsome
      cases hsome
      exact ⟨rfl, Option.not_isSome_iff_eq_none.mp hc⟩
  refine ⟨?_, ?_, ?_⟩
  · simp only [CarModelClassifier.get_loaded_models_info, List.filter_append,
      List.length_append]
    have h1 : ((cache.map (fun q => ModelsInfoEntry.mk q.1 "loaded" true none)).filter
        (fun ent => ent.brand == B)).length = 1 := by
      rw [List.filter_map]
      simp only [List.length_map]
      have : ((fun (ent : ModelsInfoEntry) => ent.brand == B) ∘
          (fun (q : String × BrandEntry) => ModelsInfoEntry.mk q.1 "loaded" true none))
          = fun q => q.1 == B := rfl
      rw [this]
      exact dictGet_count_one cache B hnodup hmem
    have h2 : ((disk_files.filterMap (fun f =>
        let brand : String := ⟨replaceAllChars "_efficientnet_b3".data (pyStem f.1).data⟩
        if (dictGet brand cache).isSome then none
        else some (ModelsInfoEntry.mk brand "on_disk" false (some (pyRound2 f.2))))).filter
          (fun ent => ent.brand == B)).length = 0 := by
      rw [List.length_eq_zero, List.filter_eq_nil_iff]
      intro ent hent
      obtain ⟨_, hnone⟩ := hdisk ent hent
      simp only [beq_iff_eq]
      intro hb
      rw [← hb] at hmem
      rw [hnone] at hmem
      cases hmem
    rw [h1, h2]
  · intro ent hent hb
    simp only [CarModelClassifier.get_loaded_models_info, List.mem_append] at hent
    cases hent with
    | inl hc =>
      obtain ⟨q, _, hq⟩ := List.mem_map.mp hc
      rw [← hq]
    | inr hd =>
      obtain ⟨_, hnone⟩ := hdisk ent hd
      rw [← hb] at hmem
      rw [hnone] at hmem
      cases hmem
  · intro ent hent hmemf
    simp only [CarModelClassifier.get_loaded_models_info, List.mem_append] at hent
    cases hent with
    | inl hc =>
      obtain ⟨q, _, hq⟩ := List.mem_map.mp hc
      rw [← hq] at hmemf
      cases hmemf
    | inr hd => exact (hdisk ent hd).2

/-- Witness for C8 (amended): brand `"Audi"` (normalization-invariant)
cached and with its canonical file on disk is listed exactly once, as the
in-memory entry. -/
theorem get_loaded_models_info_dedup_witness :
    ((CarModelClassifier.get_loaded_models_info [("Audi", exEntry)]
        [("Audi_efficientnet_b3.pth", 7)]).models.filter
          (fun ent => ent.brand == "Audi")).length = 1
    ∧ (CarModelClassifier.get_loaded_models_info [("Audi", exEntry)]
        [("Audi_efficientnet_b3.pth", 7)]).models
      = [⟨"Audi", "loaded", true, none⟩] :=
  ⟨(get_loaded_models_info_dedup_on_normalized [("Audi", exEntry)]
      [("Audi_efficientnet_b3.pth", 7)] "Audi" (by decide) (by decide)).1,
    by decide⟩
